import Mathlib

/-!
Verification development for the `scrapers-us-federal` repository.

A shallow embedding of the three ingestors — the bill pipeline
(`unitedstates/bill.py`), the legislator pipeline
(`unitedstates/legislative.py`) and the House floor-update pipeline
(`unitedstates/floor_update.py`) — together with theorems about the
claimed behaviour.  Python strings are modelled as `String`, Python
dictionaries used as static maps become functions into `Option`,
exceptions become `Option`/`Except` results, and generator output
becomes an explicit output list.
-/

/-! ## util.py / bill.py : `datetime_to_date`

Python's `str.split(sep)` for a one-character separator, on the
character-list view of a string.  `"".split('T') = ['']`,
`"aTb".split('T') = ['a','b']`, `"T".split('T') = ['','']`.
-/

def pySplit (sep : Char) : List Char → List (List Char)
  | [] => [[]]
  | c :: cs =>
    if c = sep then
      [] :: pySplit sep cs
    else
      match pySplit sep cs with
      | [] => [[c]]
      | p :: ps => (c :: p) :: ps

/-- `datetime_to_date` from `util.py` (the copy in `bill.py` is identical):
`datetime_str.split('T')[0] if 'T' in datetime_str else datetime_str`. -/
def datetime_to_date (s : String) : String :=
  if 'T' ∈ s.data then ⟨(pySplit 'T' s.data).headD []⟩ else s

theorem pySplit_ne_nil (sep : Char) (l : List Char) : pySplit sep l ≠ [] := by
  induction l with
  | nil => simp [pySplit]
  | cons c cs ih =>
    by_cases h : c = sep
    · simp [pySplit, h]
    · simp only [pySplit, if_neg h]
      cases hs : pySplit sep cs with
      | nil => simp
      | cons p ps => simp

theorem pySplit_headD (sep : Char) (l : List Char) :
    (pySplit sep l).headD [] = l.takeWhile (fun c => c ≠ sep) := by
  induction l with
  | nil => simp [pySplit]
  | cons c cs ih =>
    by_cases h : c = sep
    · simp [pySplit, h, List.takeWhile]
    · simp only [pySplit, if_neg h]
      cases hs : pySplit sep cs with
      | nil => exact absurd hs (pySplit_ne_nil sep cs)
      | cons p ps =>
        rw [hs] at ih
        simp only [List.headD_cons] at ih
        simp [List.takeWhile, h, ih]

theorem takeWhile_isPrefix {α : Type} (p : α → Bool) (l : List α) :
    l.takeWhile p <+: l :=
  ⟨l.dropWhile p, l.takeWhile_append_dropWhile p⟩

/-! ## bill.py : `UnitedStatesBillScraper` -/

namespace UnitedStatesBillScraper

structure TypeEntry where
  chamber : String
  canonical : String
deriving DecidableEq, Repr

/-- `TYPE_MAP` class attribute: bill-type code → (chamber, canonical prefix).
A Python dict lookup raises `KeyError` on a missing key, hence `Option`. -/
def TYPE_MAP (code : String) : Option TypeEntry :=
  if code = "hr" then some ⟨"lower", "HR"⟩
  else if code = "hres" then some ⟨"lower", "HRes"⟩
  else if code = "hconres" then some ⟨"joint", "HConRes"⟩
  else if code = "hjres" then some ⟨"joint", "HJRes"⟩
  else if code = "s" then some ⟨"upper", "S"⟩
  else if code = "sres" then some ⟨"upper", "SRes"⟩
  else if code = "sconres" then some ⟨"joint", "SConRes"⟩
  else if code = "sjres" then some ⟨"joint", "SJRes"⟩
  else none

/-- `VERSION_MAP` class attribute: version code → human-readable label. -/
def VERSION_MAP (code : String) : Option String :=
  if code = "eh" then some "Engrossed in House"
  else if code = "rcs" then some "Reference Change Senate"
  else if code = "iph" then some "Indefinitely Postponed House"
  else if code = "cdh" then some "Committee Discharged House"
  else if code = "ris" then some "Referral Instructions Senate"
  else if code = "rah" then some "Referred with Amendments House"
  else if code = "pwah" then some "Ordered to be Printed with House Amendment"
  else if code = "ih" then some "Introduced in House"
  else if code = "as" then some "Amendment Ordered to be Printed Senate"
  else if code = "renr" then some "Re-enrolled Bill"
  else if code = "ras" then some "Referred with Amendments Senate"
  else if code = "rts" then some "Referred to Committee Senate"
  else if code = "cds" then some "Committee Discharged Senate"
  else if code = "sas" then some "Additional Sponsors Senate"
  else if code = "lts" then some "Laid on Table in Senate"
  else if code = "pap" then some "Printed as Passed"
  else if code = "pp" then some "Public Print"
  else if code = "rfh" then some "Referred in House"
  else if code = "pav" then some "Previous Action Vitiated"
  else if code = "ash" then some "Additional Sponsors House"
  else if code = "pcs" then some "Placed on Calendar Senate"
  else if code = "rs" then some "Reported in Senate"
  else if code = "fph" then some "Failed Passage House"
  else if code = "enr" then some "Enrolled Bill"
  else if code = "rch" then some "Reference Change House"
  else if code = "fps" then some "Failed Passage Senate"
  else if code = "rh" then some "Reported in House"
  else if code = "is" then some "Introduced in Senate"
  else if code = "eah" then some "Engrossed Amendment House"
  else if code = "reah" then some "Re-engrossed Amendment House"
  else if code = "es" then some "Engrossed in Senate"
  else if code = "ops" then some "Ordered to be Printed Senate"
  else if code = "rth" then some "Referred to Committee House"
  else if code = "fah" then some "Failed Amendment House"
  else if code = "eas" then some "Engrossed Amendment Senate"
  else if code = "oph" then some "Ordered to be Printed House"
  else if code = "cph" then some "Considered and Passed House"
  else if code = "lth" then some "Laid on Table in House"
  else if code = "hds" then some "Held at Desk Senate"
  else if code = "rds" then some "Received in Senate"
  else if code = "ips" then some "Indefinitely Postponed Senate"
  else if code = "rfs" then some "Referred in Senate"
  else if code = "hdh" then some "Held at Desk House"
  else if code = "ath" then some "Agreed to House"
  else if code = "rih" then some "Referral Instructions House"
  else if code = "pch" then some "Placed on Calendar House"
  else if code = "ats" then some "Agreed to Senate"
  else if code = "eph" then some "Engrossed and Deemed Passed by House"
  else if code = "res" then some "Re-engrossed Amendment Senate"
  else if code = "sc" then some "Sponsor Change"
  else if code = "cps" then some "Considered and Passed Senate"
  else if code = "rdh" then some "Received in House"
  else none

/-- One per-version JSON file from a bill's `text-versions` directory. -/
structure VersionJson where
  issued_on : String
  version_code : String
  urls : List (String × String)
deriving DecidableEq, Repr

/-- A version file on disk: either opening/parsing it raises `IOError`
(caught by the inner handler at bill.py:235) or it parses to a `VersionJson`. -/
inductive VersionSrc
  | ioError
  | ok (vj : VersionJson)
deriving DecidableEq, Repr

/-- One entry of a bill JSON's `actions` array (the fields the pipeline reads). -/
structure ActionJson where
  acted_at : String
  type_ : String
  text : String
deriving DecidableEq, Repr

/-- The fields of a bill's `data.json` that the pipeline reads, plus its
`text-versions` files.  Sponsor/subject/title/related data are populated by
the source but are not touched by any claim and are omitted. -/
structure BillJson where
  bill_type : String
  number : String
  congress : String
  official_title : String
  url : String
  introduced_at : String
  actions : List ActionJson
  versions : List VersionSrc
deriving DecidableEq, Repr

/-- One entry appended to `bill.versions` (bill.py:231-234). -/
structure VersionEntry where
  date : String
  type_ : String
  name : String
  links : List (String × String)
deriving DecidableEq, Repr

/-- One entry of `bill.actions` (bill.py:207-220); the synthetic introduction
action's classification is modelled in `types`. -/
structure ActionEntry where
  date : String
  types : List String
  description : String
  actor : String
deriving DecidableEq, Repr

/-- The Bill fields set by the pipeline that the claims mention. -/
structure BillOut where
  identifier : String
  legislative_session : String
  title : String
  chamber : String
  source : String
  actions : List ActionEntry
  versions : List VersionEntry
deriving DecidableEq, Repr

/-- The version-file loop (bill.py:223-237).  An `IOError` on a version file
is caught and that file is skipped.  The `VERSION_MAP` lookup happens inside
the `for k, v in urls.items()` loop, so it only runs when `urls` is nonempty;
since the looked-up code does not change across iterations the per-iteration
lookup is hoisted to one lookup guarded by nonemptiness.  A failed lookup is
a `KeyError`, which the inner `except IOError` does not catch: it aborts the
whole bill (`none`). -/
def scrape_versions : List VersionSrc → Option (List VersionEntry)
  | [] => some []
  | VersionSrc.ioError :: rest => scrape_versions rest
  | VersionSrc.ok vj :: rest =>
    match vj.urls with
    | [] => scrape_versions rest
    | kv :: kvs =>
      match VERSION_MAP vj.version_code with
      | none => none
      | some label =>
        (scrape_versions rest).map (fun vs =>
          ((kv :: kvs).map (fun p =>
            { date := datetime_to_date vj.issued_on
              type_ := vj.version_code
              name := label
              links := [p] })) ++ vs)

/-- The per-`data.json` body of `_scrape_bills` (bill.py:164-240).  Any
exception — `KeyError` from `TYPE_MAP`/`VERSION_MAP`, `IOError`, or anything
else — is caught by the handlers at bill.py:242-248 and skips the file,
hence `Option`. -/
def scrape_bill (j : BillJson) : Option BillOut :=
  match TYPE_MAP j.bill_type with
  | none => none
  | some entry =>
    match scrape_versions j.versions with
    | none => none
    | some vs =>
      some
        { identifier := entry.canonical ++ " " ++ j.number
          legislative_session := j.congress
          title := j.official_title
          chamber := entry.chamber
          source := j.url
          actions :=
            { date := datetime_to_date j.introduced_at
              types := ["introduced"]
              description := "date of introduction"
              actor := entry.chamber } ::
            j.actions.map (fun a =>
              { date := datetime_to_date a.acted_at
                types := [a.type_]
                description := a.text
                actor := entry.chamber })
          versions := vs }

/-- `_scrape_bills` over the discovered `data.json` files: every per-file
failure is caught and the file skipped, the rest of the walk continues. -/
def scrape_bills (files : List BillJson) : List BillOut :=
  files.filterMap scrape_bill

end UnitedStatesBillScraper

/-! ## legislative.py : `UnitedStatesLegislativeScraper`

`scrape_current_legislators` is a single Python function; its local
variables `birth_date`, `division_id`/`label` are ordinary function-scope
locals that persist across loop iterations (and across repos), while
`posts` and `person_cache` are re-created at the top of each repo
iteration.  The embedding threads all of that through `ScrapeState`.
An uncaught Python exception (`KeyError` on an unknown term type,
`NameError` on a variable read before any assignment) aborts the whole
generator, hence `Option`. -/

namespace UnitedStatesLegislativeScraper

/-- One entry of a person's `terms` list (legislative.py:78-85). -/
structure Term where
  type_ : String
  state : String
  district : Option Nat
  party : Option String
  start : String
  end_ : String
deriving DecidableEq, Repr

/-- One YAML roster record (legislative.py:63-69); identifier/image
attachment (legislative.py:138-145) touches no claim and is omitted. -/
structure PersonRec where
  official_full : Option String
  first : String
  last : String
  birthday : Option String
  terms : List Term
deriving DecidableEq, Repr

/-- The two chamber organizations created by `scrape_current_chambers`. -/
inductive Chamber
  | house
  | senate
deriving DecidableEq, Repr

/-- Function-scope mutable state of `scrape_current_legislators`.
`birth_date` and `divlab` (`division_id`, `label`) are `none` while the
corresponding Python local is still unbound; `cache_keys` records the
keys touched in `person_cache` — the source never assigns a created
Person back into the cache, so every lookup yields `None`.  `next_id`
numbers the `Person` objects in creation order, standing in for the
unique `_id` each `pupa` model instance receives. -/
structure ScrapeState where
  birth_date : Option String
  divlab : Option (String × String)
  posts : List String
  cache_keys : List (String × String)
  next_id : Nat
deriving DecidableEq, Repr

def initState : ScrapeState := ⟨none, none, [], [], 0⟩

/-- The records yielded by the generator, in order.  Seat memberships
refer to their post by division id and to the person by creation number;
a party membership's organization is the synthesized party pseudo-id. -/
inductive Output
  | post (division_id label role : String) (chamber : Chamber)
  | seatMembership (post_division_id role label start_date end_date : String)
      (person_id : Nat) (chamber : Chamber)
  | partyMembership (party start_date end_date : String) (person_id : Nat)
  | person (id : Nat) (name : String) (birth_date : String)
deriving DecidableEq, Repr

/-- Python's `str.lower()` on the state code, mapping `Char.toLower` over
the characters (defined structurally so proofs can evaluate it; the
library's `String.toLower` recurses on byte positions and does not reduce
in the kernel). -/
def pyLower (s : String) : String := ⟨s.data.map Char.toLower⟩

/-- The label / division-id assignments of legislative.py:93-104: the first
branch fires for `type == "rep" and district is not None`, the second for
`type == "sen"`; when neither fires the locals keep their carried values
(`carried`, `none` when still unbound). -/
def term_division_label (type_ : String) (district : Option Nat) (state : String)
    (carried : Option (String × String)) : Option (String × String) :=
  let afterRep :=
    match type_, district with
    | "rep", some d =>
      some ("ocd-division/country:us/state:" ++ pyLower state ++
              (if d ≠ 0 then "/cd:" ++ toString d else ""),
            "Representative for District " ++ toString d ++ " in " ++ state)
    | _, _ => carried
  if type_ = "sen" then
    some ("ocd-division/country:us/state:" ++ pyLower state,
          "Senator for " ++ state)
  else afterRep

/-- The per-term loop body (legislative.py:78-136).  An unknown term type
raises `KeyError` at the chamber dict lookup; a read of `division_id`
before any branch ever assigned it raises `NameError` — both abort. -/
def scrape_term (st : ScrapeState) (who_id : Nat) (t : Term) :
    Option (ScrapeState × List Output) :=
  match (if t.type_ = "rep" then some Chamber.house
         else if t.type_ = "sen" then some Chamber.senate
         else none) with
  | none => none
  | some chamber =>
    let role := if t.type_ = "rep" then "Representative" else "Senator"
    match term_division_label t.type_ t.district t.state st.divlab with
    | none => none
    | some (division_id, label) =>
      let posts' := if division_id ∈ st.posts then st.posts else st.posts ++ [division_id]
      let postOut : List Output :=
        if division_id ∈ st.posts then []
        else [Output.post division_id label role chamber]
      let seat := Output.seatMembership division_id role label t.start t.end_ who_id chamber
      let party := if t.party = some "Democrat" then some "Democratic" else t.party
      let partyOut : List Output :=
        match party with
        | some p => if p = "" then [] else [Output.partyMembership p t.start t.end_ who_id]
        | none => []
      some ({ st with divlab := some (division_id, label), posts := posts' },
            postOut ++ [seat] ++ partyOut)

def scrape_terms (st : ScrapeState) (who_id : Nat) :
    List Term → Option (ScrapeState × List Output)
  | [] => some (st, [])
  | t :: ts =>
    match scrape_term st who_id t with
    | none => none
    | some (st1, out1) =>
      match scrape_terms st1 who_id ts with
      | none => none
      | some (st2, out2) => some (st2, out1 ++ out2)

/-- The per-person loop body (legislative.py:63-148).  The cache lookup
`person_cache[name][birth_date]` always yields `None` because the created
`Person` is never stored back, so a fresh Person (fresh id) is created for
every record; it is yielded only when the record had at least one term. -/
def scrape_person (st : ScrapeState) (rec : PersonRec) :
    Option (ScrapeState × List Output) :=
  let name :=
    match rec.official_full with
    | some n => n
    | none => rec.first ++ " " ++ rec.last
  match (match rec.birthday with
         | some b => some b
         | none => st.birth_date) with
  | none => none
  | some birth_date =>
    let cache' :=
      if (name, birth_date) ∈ st.cache_keys then st.cache_keys
      else st.cache_keys ++ [(name, birth_date)]
    let who_id := st.next_id
    let st1 : ScrapeState :=
      { st with birth_date := some birth_date, cache_keys := cache',
                next_id := st.next_id + 1 }
    match scrape_terms st1 who_id rec.terms with
    | none => none
    | some (st2, outs) =>
      some (st2, outs ++ (if rec.terms = [] then [] else [Output.person who_id name birth_date]))

def scrape_roster (st : ScrapeState) :
    List PersonRec → Option (ScrapeState × List Output)
  | [] => some (st, [])
  | r :: rs =>
    match scrape_person st r with
    | none => none
    | some (st1, o1) =>
      match scrape_roster st1 rs with
      | none => none
      | some (st2, o2) => some (st2, o1 ++ o2)

/-- The outer `for repo in repos` loop: `posts` and `person_cache` are
re-created per repo, the other locals persist. -/
def scrape_repos (st : ScrapeState) :
    List (List PersonRec) → Option (ScrapeState × List Output)
  | [] => some (st, [])
  | roster :: rest =>
    match scrape_roster { st with posts := [], cache_keys := [] } roster with
    | none => none
    | some (st1, o1) =>
      match scrape_repos st1 rest with
      | none => none
      | some (st2, o2) => some (st2, o1 ++ o2)

/-- `scrape_current_legislators`, one roster list per repo URL. -/
def scrape_current_legislators (repos : List (List PersonRec)) :
    Option (List Output) :=
  (scrape_repos initState repos).map Prod.snd

/-- The Person records among the yielded output, as (id, name, birth date). -/
def personsOf (outs : List Output) : List (Nat × String × String) :=
  outs.filterMap (fun o =>
    match o with
    | Output.person i n b => some (i, n, b)
    | _ => none)

end UnitedStatesLegislativeScraper

/-! ## floor_update.py : `UnitedStatesFloorUpdateScraper` -/

namespace UnitedStatesFloorUpdateScraper

def HOUSE_BACKSEARCH_DAYS : Nat := 90

/-- The marker the Clerk's site returns for a date with no document
(floor_update.py:119). -/
def NOT_FOUND_MARKER : String := "The requested file was not found"

/-- Whether `needle` occurs at the head of `hay`. -/
def startsWithL : List Char → List Char → Bool
  | [], _ => true
  | _ :: _, [] => false
  | a :: as, b :: bs => a = b && startsWithL as bs

/-- Whether `needle` occurs anywhere in `hay`. -/
def containsSubL (needle : List Char) : List Char → Bool
  | [] => startsWithL needle []
  | c :: rest => startsWithL needle (c :: rest) || containsSubL needle rest

/-- Python's `needle in hay` on strings. -/
def pyInStr (needle hay : String) : Bool :=
  containsSubL needle.data hay.data

/-- The offset from today (in days) requested on the `(j+1)`-th loop
iteration, when the loop's current offset is `d` and its loop counter is
`i`: the source steps `date = date - timedelta(days=i)` after each miss
with `i` running over `range(1, HOUSE_BACKSEARCH_DAYS+1)`, so from
`(0, 1)` the requested offsets are `0, 1, 3, 6, 10, ...`. -/
def offAt (d i : Nat) : Nat → Nat
  | 0 => d
  | j + 1 => offAt (d + i) (i + 1) j

/-- The backward-search loop of `_house_floor_update_get_latest_xml`
(floor_update.py:116-123).  `resp` maps a day offset from today to the
response body for that date's URL; `k` is the number of loop iterations
left.  A response without the not-found marker is returned immediately;
falling out of the loop warns and returns `None` (here `none`). -/
def backsearchAux (resp : Nat → String) (d i : Nat) : Nat → Option String
  | 0 => none
  | k + 1 =>
    if pyInStr NOT_FOUND_MARKER (resp d) then backsearchAux resp (d + i) (i + 1) k
    else some (resp d)

def house_floor_update_get_latest_xml (resp : Nat → String) : Option String :=
  backsearchAux resp 0 1 HOUSE_BACKSEARCH_DAYS

/-- The day offsets actually requested by the loop, in order. -/
def backsearchTraceAux (resp : Nat → String) (d i : Nat) : Nat → List Nat
  | 0 => []
  | k + 1 =>
    if pyInStr NOT_FOUND_MARKER (resp d) then
      d :: backsearchTraceAux resp (d + i) (i + 1) k
    else [d]

def backsearchTrace (resp : Nat → String) : List Nat :=
  backsearchTraceAux resp 0 1 HOUSE_BACKSEARCH_DAYS

/-- The full schedule of offsets the loop would request if every date
missed, starting from offset `d` with counter `i`. -/
def offsetsFrom (d i : Nat) : Nat → List Nat
  | 0 => []
  | k + 1 => d :: offsetsFrom (d + i) (i + 1) k

/-- A hyperlink (`a` element) inside the day's XML document. -/
structure Link where
  rel : String
  href : String
  text : String
deriving DecidableEq, Repr

/-- One `floor_action` element, with the hyperlinks of its own subtree. -/
structure FloorAction where
  act_id : String
  unique_id : String
  action_time : String
  description : String
  links : List Link
deriving DecidableEq, Repr

/-- The parsed day's document. -/
structure FloorDoc where
  congress : String
  legislative_day : String
  actions : List FloorAction
deriving DecidableEq, Repr

/-- The Event fields the claims mention: reference lists hold the link
texts (bills, laws, votes) or hrefs (reports); title/time synthesis,
pseudo-id derivation and committee tagging touch no claim and are
omitted. -/
structure Event where
  description : String
  act_id : String
  unique_id : String
  bills : List String
  laws : List String
  votes : List String
  reports : List String
deriving DecidableEq, Repr

/-- Every hyperlink of the whole document.  The lookups in
floor_update.py:163,170,178,185 use the XPath `//a[@rel=...]`, which is
rooted at the document even though evaluated from the `fa` element. -/
def docLinks (doc : FloorDoc) : List Link :=
  doc.actions.flatMap (fun a => a.links)

def relLinks (doc : FloorDoc) (r : String) : List Link :=
  (docLinks doc).filter (fun l => l.rel = r)

/-- `_parse_house_floor_xml_legislative_activity` (floor_update.py:124-194):
one Event per `floor_action`, whose reference lists come from the
document-wide `//a[@rel=...]` queries. -/
def parse_house_floor_xml_legislative_activity (doc : FloorDoc) : List Event :=
  doc.actions.map (fun fa =>
    { description := fa.description
      act_id := fa.act_id
      unique_id := fa.unique_id
      bills := (relLinks doc "bill").map (fun l => l.text)
      laws := (relLinks doc "publaw").map (fun l => l.text)
      votes := (relLinks doc "vote").map (fun l => l.text)
      reports := (relLinks doc "report").map (fun l => l.href) })

/-- `_scrape_house_floor_update` (floor_update.py:225-232) feeds the result
of the backward search straight into the parser.  When the search was
exhausted that result is `None`; `_xml_parser` (floor_update.py:42-53)
then evaluates `None.encode(encoding)`, which raises `AttributeError` —
modelled as the `Except.error` case.  `parse` abstracts the parsing of a
found XML string into events. -/
def scrape_house_floor_update (resp : Nat → String)
    (parse : String → List Event) : Except String (List Event) :=
  match house_floor_update_get_latest_xml resp with
  | some xml => Except.ok (parse xml)
  | none => Except.error "AttributeError"

end UnitedStatesFloorUpdateScraper

open UnitedStatesBillScraper UnitedStatesLegislativeScraper UnitedStatesFloorUpdateScraper

/-! ## Concrete sample inputs -/

def hrSampleBill : BillJson :=
  ⟨"hr", "1234", "113", "A bill.", "http://example.gov/hr1234",
   "2013-04-01T10:00:00-05:00", [], []⟩

def badVersionJson : VersionJson :=
  ⟨"2013-05-01T12:00:00Z", "zzz", [("text/xml", "http://example.gov/v1.xml")]⟩

def goodVersionJson : VersionJson :=
  ⟨"2013-05-02", "ih", [("text/html", "http://example.gov/v2.html")]⟩

def badVersionBill : BillJson :=
  ⟨"hr", "7", "113", "Title.", "http://example.gov/hr7", "2013-01-01", [],
   [VersionSrc.ok badVersionJson, VersionSrc.ok goodVersionJson]⟩

/-! ## Helper lemmas for the bill pipeline -/

theorem scrape_versions_unknown_code (l : List VersionSrc) (vj : VersionJson)
    (hmem : VersionSrc.ok vj ∈ l) (hcode : VERSION_MAP vj.version_code = none)
    (hurls : vj.urls ≠ []) : scrape_versions l = none := by
  induction l with
  | nil => cases hmem
  | cons hd rest ih =>
    cases hd with
    | ioError =>
      have : VersionSrc.ok vj ∈ rest := by
        rcases List.mem_cons.mp hmem with h | h
        · cases h
        · exact h
      simpa [scrape_versions] using ih this
    | ok vj' =>
      rcases List.mem_cons.mp hmem with h | h
      · cases h
        cases hu : vj.urls with
        | nil => exact absurd hu hurls
        | cons kv kvs => simp [scrape_versions, hu, hcode]
      · cases hu : vj'.urls with
        | nil => simpa [scrape_versions, hu] using ih h
        | cons kv kvs =>
          cases hv : VERSION_MAP vj'.version_code with
          | none => simp [scrape_versions, hu, hv]
          | some label => simp [scrape_versions, hu, hv, ih h]

theorem scrape_bill_none_of_versions_none (j : BillJson)
    (h : scrape_versions j.versions = none) : scrape_bill j = none := by
  unfold scrape_bill
  cases TYPE_MAP j.bill_type with
  | none => rfl
  | some e => simp [h]

theorem scrape_versions_dates (l : List VersionSrc) (vs : List VersionEntry)
    (h : scrape_versions l = some vs) :
    ∀ v ∈ vs, ∃ vj, VersionSrc.ok vj ∈ l ∧ v.date = datetime_to_date vj.issued_on := by
  induction l generalizing vs with
  | nil =>
    simp only [scrape_versions, Option.some.injEq] at h
    subst h
    intro v hv
    cases hv
  | cons hd rest ih =>
    cases hd with
    | ioError =>
      simp only [scrape_versions] at h
      intro v hv
      rcases ih vs h v hv with ⟨vj, hvj, hdate⟩
      exact ⟨vj, List.mem_cons_of_mem _ hvj, hdate⟩
    | ok vj' =>
      cases hu : vj'.urls with
      | nil =>
        simp only [scrape_versions, hu] at h
        intro v hv
        rcases ih vs h v hv with ⟨vj, hvj, hdate⟩
        exact ⟨vj, List.mem_cons_of_mem _ hvj, hdate⟩
      | cons kv kvs =>
        simp only [scrape_versions, hu] at h
        cases hv : VERSION_MAP vj'.version_code with
        | none => rw [hv] at h; cases h
        | some label =>
          rw [hv] at h
          cases hrest : scrape_versions rest with
          | none => rw [hrest] at h; cases h
          | some vs' =>
            rw [hrest] at h
            simp only [Option.map_some', Option.some.injEq] at h
            subst h
            intro v hv
            rcases List.mem_append.mp hv with hl | hr
            · rcases List.mem_map.mp hl with ⟨p, _, hp⟩
              exact ⟨vj', List.mem_cons_self _ _, by rw [← hp]⟩
            · rcases ih vs' hrest v hr with ⟨vj, hvj, hdate⟩
              exact ⟨vj, List.mem_cons_of_mem _ hvj, hdate⟩

/-! ## Claim theorems for the bill pipeline -/

/-- C2, counterexample: a bill whose `text-versions` directory contains one
version file with the unknown code `"zzz"` and one good version file with
code `"ih"` is not yielded at all — the enclosing Bill is dropped, refuting
the claim that only the offending version file is skipped. -/
theorem unknown_version_code_drops_whole_bill_cex :
    VERSION_MAP "zzz" = none ∧
    scrape_bill badVersionBill = none ∧
    scrape_bills [badVersionBill] = [] := by
  refine ⟨rfl, rfl, rfl⟩

/-- C2, amended: a version file whose code is absent from `VERSION_MAP`
(and whose `urls` map is nonempty, so the lookup inside the urls loop
runs) raises a `KeyError` that escapes the inner `except IOError` and is
caught by the per-bill handler: the whole enclosing bill is skipped (not
yielded), while every other bill file is processed as before. -/
theorem unknown_version_code_skips_enclosing_bill :
    ∀ (bs bs' : List BillJson) (b : BillJson) (vj : VersionJson),
      VersionSrc.ok vj ∈ b.versions → VERSION_MAP vj.version_code = none →
      vj.urls ≠ [] →
      scrape_bill b = none ∧
      scrape_bills (bs ++ b :: bs') = scrape_bills bs ++ scrape_bills bs' := by
  intro bs bs' b vj hmem hcode hurls
  have hb : scrape_bill b = none :=
    scrape_bill_none_of_versions_none b (scrape_versions_unknown_code _ vj hmem hcode hurls)
  refine ⟨hb, ?_⟩
  unfold scrape_bills
  rw [List.filterMap_append]
  simp [List.filterMap_cons, hb]

/-- C2, witness: the amended theorem applied at the concrete bad bill. -/
theorem unknown_version_code_skips_enclosing_bill_witness :
    (VersionSrc.ok badVersionJson ∈ badVersionBill.versions ∧
     VERSION_MAP badVersionJson.version_code = none ∧
     badVersionJson.urls ≠ []) ∧
    (scrape_bill badVersionBill = none ∧
     scrape_bills ([] ++ badVersionBill :: [hrSampleBill]) =
       scrape_bills [] ++ scrape_bills [hrSampleBill]) :=
  ⟨⟨by decide, by decide, by decide⟩,
   unknown_version_code_skips_enclosing_bill [] [hrSampleBill] badVersionBill
     badVersionJson (by decide) (by decide) (by decide)⟩

/-- C6: every bill-type code of `TYPE_MAP` maps a bill JSON with that code
to a Bill whose identifier is the canonical prefix, a space and the bill
number, whose chamber is the table entry's chamber and whose legislative
session is the congress; concretely, `bill_type "hr"`, `number "1234"`,
`congress "113"` gives identifier `"HR 1234"`, session `"113"`, chamber
`"lower"`. -/
theorem bill_type_map_identifier_chamber :
    (∀ code e, TYPE_MAP code = some e →
      ∀ (n cong title url intro : String) (acts : List ActionJson),
        ∃ out, scrape_bill ⟨code, n, cong, title, url, intro, acts, []⟩ = some out ∧
          out.identifier = e.canonical ++ " " ++ n ∧
          out.chamber = e.chamber ∧
          out.legislative_session = cong) ∧
    (scrape_bill hrSampleBill).map
      (fun o => (o.identifier, o.legislative_session, o.chamber)) =
      some ("HR 1234", "113", "lower") := by
  constructor
  · intro code e he n cong title url intro acts
    have h1 : scrape_bill ⟨code, n, cong, title, url, intro, acts, []⟩ =
        some
          { identifier := e.canonical ++ " " ++ n
            legislative_session := cong
            title := title
            chamber := e.chamber
            source := url
            actions :=
              { date := datetime_to_date intro
                types := ["introduced"]
                description := "date of introduction"
                actor := e.chamber } ::
              acts.map (fun a =>
                { date := datetime_to_date a.acted_at
                  types := [a.type_]
                  description := a.text
                  actor := e.chamber })
            versions := [] } := by
      simp [scrape_bill, he, scrape_versions]
    exact ⟨_, h1, rfl, rfl, rfl⟩
  · rfl

/-- C6, witness: the universal part applied at the code `"hr"`. -/
theorem bill_type_map_identifier_chamber_witness :
    TYPE_MAP "hr" = some ⟨"lower", "HR"⟩ ∧
    ∃ out, scrape_bill ⟨"hr", "1", "113", "t", "u", "2013-01-01", [], []⟩ = some out ∧
      out.identifier = (⟨"lower", "HR"⟩ : TypeEntry).canonical ++ " " ++ "1" ∧
      out.chamber = (⟨"lower", "HR"⟩ : TypeEntry).chamber ∧
      out.legislative_session = "113" :=
  ⟨by decide,
   bill_type_map_identifier_chamber.1 "hr" ⟨"lower", "HR"⟩ (by decide)
     "1" "113" "t" "u" "2013-01-01" []⟩

/-- C10: `datetime_to_date` never leaves a `'T'` in its output, is
idempotent, is the identity on `'T'`-free strings, always returns a prefix
of its input, and every action/version date a Bill records is
`datetime_to_date` of the corresponding source date string. -/
theorem datetime_to_date_spec :
    (∀ s : String, 'T' ∉ (datetime_to_date s).data) ∧
    (∀ s : String, datetime_to_date (datetime_to_date s) = datetime_to_date s) ∧
    (∀ s : String, 'T' ∉ s.data → datetime_to_date s = s) ∧
    (∀ s : String, (datetime_to_date s).data <+: s.data) ∧
    (∀ j out, scrape_bill j = some out →
      (∀ a ∈ out.actions,
        a.date = datetime_to_date j.introduced_at ∨
        ∃ aj ∈ j.actions, a.date = datetime_to_date aj.acted_at) ∧
      (∀ v ∈ out.versions,
        ∃ vj, VersionSrc.ok vj ∈ j.versions ∧
          v.date = datetime_to_date vj.issued_on)) := by
  have hid : ∀ s : String, 'T' ∉ s.data → datetime_to_date s = s := by
    intro s h
    simp [datetime_to_date, h]
  have hnoT : ∀ s : String, 'T' ∉ (datetime_to_date s).data := by
    intro s
    by_cases h : 'T' ∈ s.data
    · simp only [datetime_to_date, if_pos h, pySplit_headD]
      intro hmem
      have := List.mem_takeWhile_imp hmem
      simp at this
    · simp [datetime_to_date, h]
  refine ⟨hnoT, fun s => hid _ (hnoT s), hid, ?_, ?_⟩
  · intro s
    by_cases h : 'T' ∈ s.data
    · simp only [datetime_to_date, if_pos h, pySplit_headD]
      exact takeWhile_isPrefix _ _
    · simp [datetime_to_date, h]
  · intro j out hout
    unfold scrape_bill at hout
    cases hTM : TYPE_MAP j.bill_type with
    | none => rw [hTM] at hout; cases hout
    | some e =>
      rw [hTM] at hout
      cases hvs : scrape_versions j.versions with
      | none => rw [hvs] at hout; cases hout
      | some vs =>
        rw [hvs] at hout
        simp only [Option.some.injEq] at hout
        subst hout
        constructor
        · intro a ha
          rcases List.mem_cons.mp ha with h | h
          · left; rw [h]
          · rcases List.mem_map.mp h with ⟨aj, haj, heq⟩
            right
            exact ⟨aj, haj, by rw [← heq]⟩
        · intro v hv
          exact scrape_versions_dates _ vs hvs v hv

def hrSampleOut : BillOut :=
  { identifier := "HR 1234"
    legislative_session := "113"
    title := "A bill."
    chamber := "lower"
    source := "http://example.gov/hr1234"
    actions := [⟨"2013-04-01", ["introduced"], "date of introduction", "lower"⟩]
    versions := [] }

/-- C10, witness: identity on a `'T'`-free date string and the recorded
dates of a concrete bill, via the theorem. -/
theorem datetime_to_date_spec_witness :
    datetime_to_date "2013-01-01" = "2013-01-01" ∧
    (∀ a ∈ hrSampleOut.actions,
      a.date = datetime_to_date hrSampleBill.introduced_at ∨
      ∃ aj ∈ hrSampleBill.actions, a.date = datetime_to_date aj.acted_at) :=
  ⟨datetime_to_date_spec.2.2.1 "2013-01-01" (by decide),
   (datetime_to_date_spec.2.2.2.2 hrSampleBill hrSampleOut (by decide)).1⟩

/-! ## Helper lemmas for the legislator pipeline -/

theorem personsOf_append (a b : List Output) :
    personsOf (a ++ b) = personsOf a ++ personsOf b :=
  List.filterMap_append a b _

theorem scrape_term_no_person (st : ScrapeState) (w : Nat) (t : Term)
    (st' : ScrapeState) (outs : List Output)
    (h : scrape_term st w t = some (st', outs)) : personsOf outs = [] := by
  unfold scrape_term at h
  cases hc : (if t.type_ = "rep" then some Chamber.house
              else if t.type_ = "sen" then some Chamber.senate
              else none) with
  | none => rw [hc] at h; exact Option.noConfusion h
  | some chamber =>
    rw [hc] at h
    cases hd : term_division_label t.type_ t.district t.state st.divlab with
    | none =>
      rw [hd] at h
      exact Option.noConfusion h
    | some dl =>
      obtain ⟨division_id, label⟩ := dl
      rw [hd] at h
      simp only [Option.some.injEq, Prod.mk.injEq] at h
      rw [← h.2]
      simp only [personsOf, List.filterMap_append]
      repeat' split
      all_goals rfl

theorem scrape_terms_no_person (ts : List Term) (st : ScrapeState) (w : Nat)
    (st' : ScrapeState) (outs : List Output)
    (h : scrape_terms st w ts = some (st', outs)) : personsOf outs = [] := by
  induction ts generalizing st st' outs with
  | nil =>
    simp only [scrape_terms, Option.some.injEq, Prod.mk.injEq] at h
    rw [← h.2]
    rfl
  | cons t ts ih =>
    simp only [scrape_terms] at h
    cases h1 : scrape_term st w t with
    | none => rw [h1] at h; exact Option.noConfusion h
    | some p1 =>
      obtain ⟨st1, out1⟩ := p1
      simp only [h1] at h
      cases h2 : scrape_terms st1 w ts with
      | none =>
        simp only [h2] at h
        exact Option.noConfusion h
      | some p2 =>
        obtain ⟨st2, out2⟩ := p2
        simp only [h2, Option.some.injEq, Prod.mk.injEq] at h
        rw [← h.2, personsOf_append,
          scrape_term_no_person st w t st1 out1 h1, ih st1 st2 out2 h2]
        rfl

/-! ## Claim theorems for the legislator pipeline -/

def dupTerm : Term := ⟨"sen", "CA", none, none, "2013-01-03", "2015-01-03"⟩

def dupRec : PersonRec :=
  ⟨some "Jane Roe", "Jane", "Roe", some "1950-02-03", [dupTerm]⟩

def dupOutputs : List Output :=
  [Output.post "ocd-division/country:us/state:ca" "Senator for CA" "Senator"
     Chamber.senate,
   Output.seatMembership "ocd-division/country:us/state:ca" "Senator"
     "Senator for CA" "2013-01-03" "2015-01-03" 0 Chamber.senate,
   Output.person 0 "Jane Roe" "1950-02-03",
   Output.seatMembership "ocd-division/country:us/state:ca" "Senator"
     "Senator for CA" "2013-01-03" "2015-01-03" 1 Chamber.senate,
   Output.person 1 "Jane Roe" "1950-02-03"]

/-- C1, code bug: two roster entries with identical (name, birth date) in
one call, through one cache, yield TWO Person records (ids 0 and 1) with
one seat membership each, because the source never stores the created
Person back into `person_cache` — the dedup the spec (and the cache's own
lookup-then-create structure) promises never happens. -/
theorem duplicate_roster_entries_yield_two_persons :
    scrape_current_legislators [[dupRec, dupRec]] = some dupOutputs ∧
    personsOf dupOutputs =
      [(0, "Jane Roe", "1950-02-03"), (1, "Jane Roe", "1950-02-03")] :=
  ⟨by decide, by decide⟩

/-- C7: division identifiers — a "rep" term with district 0 gets the bare
state division id (no district suffix), district 12 gets the "/cd:12"
suffix, and a "sen" term always gets the bare state division id. -/
theorem division_identifier_rule :
    ∀ (state : String) (carried : Option (String × String)) (d : Option Nat),
      term_division_label "rep" (some 0) state carried =
        some ("ocd-division/country:us/state:" ++ pyLower state,
              "Representative for District 0 in " ++ state) ∧
      term_division_label "rep" (some 12) state carried =
        some ("ocd-division/country:us/state:" ++ pyLower state ++ "/cd:12",
              "Representative for District 12 in " ++ state) ∧
      term_division_label "sen" d state carried =
        some ("ocd-division/country:us/state:" ++ pyLower state,
              "Senator for " ++ state) := by
  intro state carried d
  have h0 : toString (0 : Nat) = "0" := rfl
  have h12 : toString (12 : Nat) = "12" := rfl
  refine ⟨?_, ?_, ?_⟩ <;> simp [term_division_label, h0, h12]

def c8Term : Term := ⟨"rep", "CA", some 0, some "Democrat", "2015-01-03", "2017-01-03"⟩

def c8TermNoParty : Term := ⟨"rep", "CA", some 0, none, "2015-01-03", "2017-01-03"⟩

/-- C8: the term (rep, CA, district 0, party "Democrat") yields a Post and
exactly two Memberships — the seat membership labeled "Representative for
District 0 in CA" against the post for division
"ocd-division/country:us/state:ca", and a party membership for
"Democratic" (normalized from "Democrat"); the same term without a party
yields only the seat membership. -/
theorem rep_term_two_memberships :
    (scrape_term initState 0 c8Term).map Prod.snd =
      some [Output.post "ocd-division/country:us/state:ca"
              "Representative for District 0 in CA" "Representative" Chamber.house,
            Output.seatMembership "ocd-division/country:us/state:ca"
              "Representative" "Representative for District 0 in CA"
              "2015-01-03" "2017-01-03" 0 Chamber.house,
            Output.partyMembership "Democratic" "2015-01-03" "2017-01-03" 0] ∧
    (scrape_term initState 0 c8TermNoParty).map Prod.snd =
      some [Output.post "ocd-division/country:us/state:ca"
              "Representative for District 0 in CA" "Representative" Chamber.house,
            Output.seatMembership "ocd-division/country:us/state:ca"
              "Representative" "Representative for District 0 in CA"
              "2015-01-03" "2017-01-03" 0 Chamber.house] :=
  ⟨rfl, rfl⟩

/-- C9: a record whose terms list is empty yields no Person and a record
with at least one term yields exactly one Person; over a whole roster the
number of Persons yielded is the number of records with a nonempty terms
list. -/
theorem person_emitted_iff_has_term :
    (∀ st rec st' outs, scrape_person st rec = some (st', outs) →
       (personsOf outs).length = if rec.terms = [] then 0 else 1) ∧
    (∀ recs st st' outs, scrape_roster st recs = some (st', outs) →
       (personsOf outs).length =
         (recs.filter (fun r => decide (r.terms ≠ []))).length) := by
  have hperson : ∀ st rec st' outs, scrape_person st rec = some (st', outs) →
      (personsOf outs).length = if rec.terms = [] then 0 else 1 := by
    intro st rec st' outs h
    unfold scrape_person at h
    split at h
    all_goals split at h
    all_goals try simp only [] at h
    all_goals
      first
        | exact Option.noConfusion h
        | split at h
    all_goals
      first
        | exact Option.noConfusion h
        | (simp only [Option.some.injEq, Prod.mk.injEq] at h
           rw [← h.2, personsOf_append,
             scrape_terms_no_person _ _ _ _ _ (by assumption)]
           by_cases hterm : rec.terms = [] <;> simp [personsOf, hterm])
  refine ⟨hperson, ?_⟩
  intro recs
  induction recs with
  | nil =>
    intro st st' outs h
    simp only [scrape_roster, Option.some.injEq, Prod.mk.injEq] at h
    rw [← h.2]
    rfl
  | cons r rs ih =>
    intro st st' outs h
    simp only [scrape_roster] at h
    cases h1 : scrape_person st r with
    | none => rw [h1] at h; exact Option.noConfusion h
    | some p1 =>
      obtain ⟨st1, o1⟩ := p1
      simp only [h1] at h
      cases h2 : scrape_roster st1 rs with
      | none => simp only [h2] at h; exact Option.noConfusion h
      | some p2 =>
        obtain ⟨st2, o2⟩ := p2
        simp only [h2, Option.some.injEq, Prod.mk.injEq] at h
        rw [← h.2, personsOf_append, List.length_append,
          hperson st r st1 o1 h1, ih st1 st2 o2 h2, List.filter_cons]
        by_cases hr : r.terms = [] <;> simp [hr, Nat.add_comm]

def c9Rec : PersonRec :=
  ⟨some "John Doe", "John", "Doe", some "1960-01-01",
   [⟨"sen", "TX", none, none, "2013-01-03", "2019-01-03"⟩]⟩

def c9St : ScrapeState :=
  ⟨some "1960-01-01", some ("ocd-division/country:us/state:tx", "Senator for TX"),
   ["ocd-division/country:us/state:tx"], [("John Doe", "1960-01-01")], 1⟩

def c9Outs : List Output :=
  [Output.post "ocd-division/country:us/state:tx" "Senator for TX" "Senator"
     Chamber.senate,
   Output.seatMembership "ocd-division/country:us/state:tx" "Senator"
     "Senator for TX" "2013-01-03" "2019-01-03" 0 Chamber.senate,
   Output.person 0 "John Doe" "1960-01-01"]

/-- C9, witness: the per-record statement applied at a concrete one-term
record. -/
theorem person_emitted_iff_has_term_witness :
    (personsOf c9Outs).length = if c9Rec.terms = [] then 0 else 1 :=
  person_emitted_iff_has_term.1 initState c9Rec c9St c9Outs (by decide)

/-! ## Helper lemmas for the floor-update backward search -/

theorem backsearchTraceAux_length_le (resp : Nat → String) :
    ∀ (k d i : Nat), (backsearchTraceAux resp d i k).length ≤ k := by
  intro k
  induction k with
  | zero => intro d i; simp [backsearchTraceAux]
  | succ k ih =>
    intro d i
    simp only [backsearchTraceAux]
    split
    · simpa using Nat.succ_le_succ (ih (d + i) (i + 1))
    · simp

theorem backsearchTraceAux_prefix_offsets (resp : Nat → String) :
    ∀ (k d i : Nat), backsearchTraceAux resp d i k <+: offsetsFrom d i k := by
  intro k
  induction k with
  | zero => intro d i; simp [backsearchTraceAux, offsetsFrom]
  | succ k ih =>
    intro d i
    simp only [backsearchTraceAux, offsetsFrom]
    split
    · obtain ⟨t, ht⟩ := ih (d + i) (i + 1)
      exact ⟨t, by rw [List.cons_append, ht]⟩
    · exact ⟨offsetsFrom (d + i) (i + 1) k, rfl⟩

theorem offsetsFrom_eq_map :
    ∀ (k d i : Nat), offsetsFrom d i k = (List.range k).map (offAt d i) := by
  intro k
  induction k with
  | zero => intro d i; simp [offsetsFrom]
  | succ k ih =>
    intro d i
    rw [offsetsFrom, List.range_succ_eq_map, List.map_cons, List.map_map,
      ih (d + i) (i + 1)]
    congr 1

theorem backsearch_first_found (resp : Nat → String) :
    ∀ (j k d i : Nat), j < k →
      (∀ m, m < j → pyInStr NOT_FOUND_MARKER (resp (offAt d i m)) = true) →
      pyInStr NOT_FOUND_MARKER (resp (offAt d i j)) = false →
      backsearchAux resp d i k = some (resp (offAt d i j)) ∧
      backsearchTraceAux resp d i k = offsetsFrom d i (j + 1) := by
  intro j
  induction j with
  | zero =>
    intro k d i hk hprev hfound
    cases k with
    | zero => exact absurd hk (Nat.lt_irrefl 0)
    | succ k =>
      have hd : pyInStr NOT_FOUND_MARKER (resp d) = false := hfound
      refine ⟨?_, ?_⟩ <;> simp [backsearchAux, backsearchTraceAux, offsetsFrom, offAt, hd]
  | succ j ih =>
    intro k d i hk hprev hfound
    cases k with
    | zero => exact absurd hk (Nat.not_lt_zero _)
    | succ k =>
      have h0 : pyInStr NOT_FOUND_MARKER (resp d) = true := hprev 0 (Nat.succ_pos j)
      obtain ⟨hres, htr⟩ := ih k (d + i) (i + 1) (Nat.lt_of_succ_lt_succ hk)
        (fun m hm => hprev (m + 1) (Nat.succ_lt_succ hm)) hfound
      refine ⟨?_, ?_⟩
      · simpa [backsearchAux, h0] using hres
      · rw [backsearchTraceAux]
        simp only [h0, if_true]
        rw [htr]
        rfl

/-! ## Claim theorems for the floor-update pipeline -/

/-- C3: the backward date search requests offsets 0, 1, 3, 6, 10, ... from
today (the step grows by one per iteration), makes at most
`HOUSE_BACKSEARCH_DAYS` = 90 requests, returns the response of the first
requested date not carrying the not-found marker, and in the concrete
scenario where today and the prior five days are all missing but day 6
exists, it returns day 6's document having requested only offsets
0, 1, 3, 6. -/
theorem house_backsearch_schedule :
    ∀ resp : Nat → String,
      (List.range 5).map (offAt 0 1) = [0, 1, 3, 6, 10] ∧
      (backsearchTrace resp).length ≤ HOUSE_BACKSEARCH_DAYS ∧
      backsearchTrace resp <+: (List.range HOUSE_BACKSEARCH_DAYS).map (offAt 0 1) ∧
      (∀ j, j < HOUSE_BACKSEARCH_DAYS →
        (∀ m, m < j → pyInStr NOT_FOUND_MARKER (resp (offAt 0 1 m)) = true) →
        pyInStr NOT_FOUND_MARKER (resp (offAt 0 1 j)) = false →
        house_floor_update_get_latest_xml resp = some (resp (offAt 0 1 j))) ∧
      ((∀ d, d ≤ 5 → pyInStr NOT_FOUND_MARKER (resp d) = true) →
        pyInStr NOT_FOUND_MARKER (resp 6) = false →
        house_floor_update_get_latest_xml resp = some (resp 6) ∧
        backsearchTrace resp = [0, 1, 3, 6]) := by
  intro resp
  refine ⟨by decide, backsearchTraceAux_length_le resp HOUSE_BACKSEARCH_DAYS 0 1,
    ?_, ?_, ?_⟩
  · rw [← offsetsFrom_eq_map]
    exact backsearchTraceAux_prefix_offsets resp HOUSE_BACKSEARCH_DAYS 0 1
  · intro j hj hprev hfound
    exact (backsearch_first_found resp j HOUSE_BACKSEARCH_DAYS 0 1 hj hprev hfound).1
  · intro hmiss hfound
    have hprev : ∀ m, m < 3 → pyInStr NOT_FOUND_MARKER (resp (offAt 0 1 m)) = true := by
      intro m hm
      have hle : offAt 0 1 m ≤ 5 := by interval_cases m <;> decide
      exact hmiss _ hle
    have hf6 : pyInStr NOT_FOUND_MARKER (resp (offAt 0 1 3)) = false := hfound
    obtain ⟨h1, h2⟩ :=
      backsearch_first_found resp 3 HOUSE_BACKSEARCH_DAYS 0 1 (by decide) hprev hf6
    refine ⟨h1, ?_⟩
    rw [show backsearchTrace resp =
      backsearchTraceAux resp 0 1 HOUSE_BACKSEARCH_DAYS from rfl, h2]
    decide

def respDay6 : Nat → String :=
  fun d => if d = 6 then "day six xml" else "The requested file was not found"

/-- C3, witness: the day-6 scenario at a concrete response function. -/
theorem house_backsearch_schedule_witness :
    house_floor_update_get_latest_xml respDay6 = some (respDay6 6) ∧
    backsearchTrace respDay6 = [0, 1, 3, 6] :=
  (house_backsearch_schedule respDay6).2.2.2.2 (by decide) (by decide)

def respAllNotFound : Nat → String :=
  fun _ => "The requested file was not found"

/-- C4, code bug: when every requested date carries the not-found marker
the search warns and returns `None`, but `_scrape_house_floor_update`
feeds that `None` straight into `_xml_parser`, whose `None.encode(...)`
raises `AttributeError` when the events are consumed — the run does not
end with an empty event sequence. -/
theorem exhausted_backsearch_raises :
    house_floor_update_get_latest_xml respAllNotFound = none ∧
    scrape_house_floor_update respAllNotFound (fun _ => []) =
      Except.error "AttributeError" :=
  ⟨rfl, rfl⟩

/-- C5: each per-action reference lookup queries the entire document, so
every Event built from one document carries identical bill, law, vote and
report reference lists, and in a two-action document where only action A
holds a bill link, the Event of action B also carries that bill. -/
theorem floor_event_references_document_wide :
    (∀ doc : FloorDoc, ∀ e1 ∈ parse_house_floor_xml_legislative_activity doc,
       ∀ e2 ∈ parse_house_floor_xml_legislative_activity doc,
       e1.bills = e2.bills ∧ e1.laws = e2.laws ∧ e1.votes = e2.votes ∧
       e1.reports = e2.reports) ∧
    (∀ (congress day : String) (A B : FloorAction) (l : Link),
       l ∈ A.links → l.rel = "bill" →
       ∀ e ∈ parse_house_floor_xml_legislative_activity ⟨congress, day, [A, B]⟩,
         l.text ∈ e.bills) := by
  constructor
  · intro doc e1 h1 e2 h2
    rcases List.mem_map.mp h1 with ⟨a1, _, he1⟩
    rcases List.mem_map.mp h2 with ⟨a2, _, he2⟩
    rw [← he1, ← he2]
    exact ⟨rfl, rfl, rfl, rfl⟩
  · intro congress day A B l hl hrel e he
    rcases List.mem_map.mp he with ⟨fa, _, hfa⟩
    rw [← hfa]
    have hmem : l ∈ docLinks ⟨congress, day, [A, B]⟩ := by
      simp [docLinks, hl]
    have hmem2 : l ∈ relLinks ⟨congress, day, [A, B]⟩ "bill" :=
      List.mem_filter.mpr ⟨hmem, by simp [hrel]⟩
    exact List.mem_map_of_mem _ hmem2

def billLinkHR1 : Link := ⟨"bill", "http://example.gov/hr1", "H.R. 1"⟩

def floorActionA : FloorAction :=
  ⟨"a1", "u1", "20140110T10:00:00", "First action.", [billLinkHR1]⟩

def floorActionB : FloorAction :=
  ⟨"a2", "u2", "20140110T11:00:00", "Second action.", []⟩

def eventForB : Event :=
  ⟨"Second action.", "a2", "u2", ["H.R. 1"], [], [], []⟩

/-- C5, witness: in the concrete two-action document the event of the
link-less action B carries action A's bill. -/
theorem floor_event_references_document_wide_witness :
    eventForB ∈
      parse_house_floor_xml_legislative_activity
        ⟨"113", "20140110", [floorActionA, floorActionB]⟩ ∧
    billLinkHR1.text ∈ eventForB.bills :=
  ⟨by decide,
   floor_event_references_document_wide.2 "113" "20140110" floorActionA
     floorActionB billLinkHR1 (by decide) (by decide) eventForB (by decide)⟩
